import Mathlib

/-!
Verification of the `day2day` binding layer (`src/RcppExports.cpp`) and of the
`runmean` running-mean routine it exposes.

The repository contains only the generated binding file: the declaration
`NumericVector runmean(NumericVector a, int width);`, the exported shim
`_day2day_runmean`, the registration table `CallEntries` and the module
initializer `R_init_day2day`.  The body of `runmean` itself is absent, so it
is modelled from the specification (trailing window with shrinking boundary
policy, `InvalidArgument` for `width < 1`, empty output for empty input).
Floating-point values are modelled as exact rationals.
-/

namespace Day2Day

/-- Arithmetic mean of a list of rationals (sum divided by length;
division by zero in `ℚ` yields `0`, but every window we take is nonempty). -/
def meanQ (xs : List ℚ) : ℚ := xs.sum / (xs.length : ℚ)

/-- Modelled from the spec: the body of `runmean` is not in the repository —
`src/RcppExports.cpp` line 9 only declares
`NumericVector runmean(NumericVector a, int width);`.  Following the spec's
words: output has the same length as the input; element `i` is the mean of
the trailing window of `width` consecutive elements ending at position `i`,
with the shrinking-window boundary policy for the first `width - 1`
positions; `width < 1` fails with `InvalidArgument`; the empty input yields
the empty output. -/
def runmean (a : List ℚ) (width : Int) : Except String (List ℚ) :=
  if width < 1 then
    Except.error "InvalidArgument"
  else
    Except.ok ((List.range a.length).map (fun i =>
      meanQ ((a.take (i + 1)).drop (i + 1 - min (i + 1) width.toNat))))

/-- Host-runtime values (`SEXP`) as far as the binding layer observes them:
a numeric vector, an integer scalar, or anything else. -/
inductive SEXP where
  | realVec (xs : List ℚ)
  | intScalar (n : Int)
  | otherSexp
deriving DecidableEq

/-- Unmarshalling of `Rcpp::traits::input_parameter< NumericVector >`:
succeeds exactly on a numeric vector. -/
def asNumericVector : SEXP → Option (List ℚ)
  | SEXP.realVec xs => some xs
  | _ => none

/-- Unmarshalling of `Rcpp::traits::input_parameter< int >`:
succeeds exactly on an integer scalar. -/
def asIntScalar : SEXP → Option Int
  | SEXP.intScalar n => some n
  | _ => none

/-- `Rcpp::wrap` of a `NumericVector` result back into a host value. -/
def wrap (xs : List ℚ) : SEXP := SEXP.realVec xs

/-- The exported shim (`src/RcppExports.cpp` lines 10–19): unmarshal the two
arguments, call `runmean`, wrap the result.  `BEGIN_RCPP`/`END_RCPP` turn any
thrown error into a synchronous host error, modelled by `Except.error`. -/
def _day2day_runmean (aSEXP widthSEXP : SEXP) : Except String SEXP :=
  match asNumericVector aSEXP with
  | none => Except.error "ConversionError"
  | some a =>
    match asIntScalar widthSEXP with
    | none => Except.error "ConversionError"
    | some width =>
      match runmean a width with
      | Except.error e => Except.error e
      | Except.ok out => Except.ok (wrap out)

/-- One row of the `R_CallMethodDef` registration table: routine name,
function pointer, number of arguments. -/
structure R_CallMethodDef where
  cname : String
  fn : SEXP → SEXP → Except String SEXP
  numArgs : Int

/-- The registration table (`src/RcppExports.cpp` lines 21–24): a single
entry (the `{NULL, NULL, 0}` sentinel terminates the C array and is not an
entry). -/
def CallEntries : List R_CallMethodDef :=
  [⟨"_day2day_runmean", _day2day_runmean, 2⟩]

/-- The registration state of a loaded DLL that `R_init_day2day` mutates:
the four routine tables of `R_registerRoutines` and the dynamic-symbol
lookup flag of `R_useDynamicSymbols`. -/
structure DllInfo where
  cRoutines : Option (List R_CallMethodDef)
  callRoutines : Option (List R_CallMethodDef)
  fortranRoutines : Option (List R_CallMethodDef)
  externalRoutines : Option (List R_CallMethodDef)
  dynamicLookup : Bool

/-- `R_registerRoutines(dll, croutines, callroutines, fortranroutines,
externalroutines)`. -/
def R_registerRoutines (dll : DllInfo)
    (c call f ext : Option (List R_CallMethodDef)) : DllInfo :=
  { dll with
    cRoutines := c
    callRoutines := call
    fortranRoutines := f
    externalRoutines := ext }

/-- `R_useDynamicSymbols(dll, flag)`. -/
def R_useDynamicSymbols (dll : DllInfo) (b : Bool) : DllInfo :=
  { dll with dynamicLookup := b }

/-- The module initializer (`src/RcppExports.cpp` lines 26–29):
`R_registerRoutines(dll, NULL, CallEntries, NULL, NULL);`
`R_useDynamicSymbols(dll, FALSE);`. -/
def R_init_day2day (dll : DllInfo) : DllInfo :=
  R_useDynamicSymbols (R_registerRoutines dll none (some CallEntries) none none) false

/-- The mean of a one-element list is that element. -/
theorem meanQ_singleton (x : ℚ) : meanQ [x] = x := by
  simp [meanQ]

/-- The mean of a nonempty constant list is the constant. -/
theorem meanQ_replicate (m : Nat) (c : ℚ) (h : m ≠ 0) :
    meanQ (List.replicate m c) = c := by
  have hm : (m : ℚ) ≠ 0 := Nat.cast_ne_zero.mpr h
  simp only [meanQ, List.sum_replicate, List.length_replicate, nsmul_eq_mul]
  field_simp

/-- The trailing window at position `i` of width `1` is the singleton `a[i]`. -/
theorem window_one (a : List ℚ) (i : Nat) (h : i < a.length) :
    (a.take (i + 1)).drop i = [a.get ⟨i, h⟩] := by
  rw [List.drop_take]
  simpa using List.take_one_drop_eq_of_lt_length h

/-- C1: for every input sequence `a` of length `n ≥ 0` and every valid
`width` in `[1, n]`, `runmean a width` succeeds with a sequence whose length
equals `n`. -/
theorem runmean_length (a : List ℚ) (width : Int)
    (h1 : 1 ≤ width) (h2 : width ≤ (a.length : Int)) :
    ∃ out : List ℚ, runmean a width = Except.ok out ∧ out.length = a.length := by
  refine ⟨(List.range a.length).map (fun i =>
      meanQ ((a.take (i + 1)).drop (i + 1 - min (i + 1) width.toNat))), ?_, by simp⟩
  unfold runmean
  rw [if_neg (not_lt.mpr h1)]

/-- Witness for C1 at `a = [1, 2, 3]`, `width = 2`. -/
theorem runmean_length_witness :
    ∃ out : List ℚ, runmean [1, 2, 3] 2 = Except.ok out ∧
      out.length = ([1, 2, 3] : List ℚ).length :=
  runmean_length [1, 2, 3] 2 (by norm_num) (by norm_num)

/-- C2: on `a = [1, 2, 3, 4, 5]` with `width = 3`, `runmean` returns exactly
`[1, 3/2, 2, 3, 4]`: shrinking trailing windows `[1]` and `[1, 2]` at
positions 0 and 1, full trailing windows afterwards. -/
theorem runmean_example_shrinking :
    runmean [1, 2, 3, 4, 5] 3 = Except.ok [1, 3/2, 2, 3, 4] := by
  norm_num [runmean, meanQ, List.range_succ, show Int.toNat 3 = 3 from rfl]

/-- C3: `runmean a 1` is the identity transform. -/
theorem runmean_width_one (a : List ℚ) : runmean a 1 = Except.ok a := by
  unfold runmean
  rw [if_neg (by norm_num)]
  congr 1
  apply List.ext_getElem
  · simp
  · intro n h1 h2
    simp only [List.getElem_map, List.getElem_range]
    have hn : n < a.length := by simpa using h2
    have hmin : min (n + 1) (Int.toNat 1) = 1 := by simp
    rw [hmin]
    simp only [Nat.add_sub_cancel]
    rw [window_one a n hn, meanQ_singleton]
    simp [List.get_eq_getElem]

/-- C4: a constant sequence is a fixed point of `runmean` for every valid
width in `[1, n]`. -/
theorem runmean_const (n : Nat) (c : ℚ) (width : Int)
    (h1 : 1 ≤ width) (h2 : width ≤ (n : Int)) :
    runmean (List.replicate n c) width = Except.ok (List.replicate n c) := by
  unfold runmean
  rw [if_neg (not_lt.mpr h1)]
  congr 1
  apply List.ext_getElem
  · simp
  · intro i hi1 hi2
    have hin : i < n := by simpa using hi2
    have hw : 1 ≤ width.toNat := by omega
    simp only [List.getElem_map, List.length_replicate, List.getElem_range,
      List.take_replicate, List.drop_replicate]
    rw [meanQ_replicate _ _ (by omega), List.getElem_replicate]

/-- Witness for C4 at `n = 3`, `c = 7`, `width = 2`. -/
theorem runmean_const_witness :
    runmean (List.replicate 3 (7 : ℚ)) 2 = Except.ok (List.replicate 3 (7 : ℚ)) :=
  runmean_const 3 7 2 (by norm_num) (by norm_num)

/-- C5: every width below 1 is rejected with `InvalidArgument`, for every
input sequence. -/
theorem runmean_invalid_width (a : List ℚ) (width : Int) (h : width < 1) :
    runmean a width = Except.error "InvalidArgument" := by
  unfold runmean
  rw [if_pos h]

/-- Witness for C5 at `a = [1]`, `width = 0`. -/
theorem runmean_invalid_width_witness :
    runmean [(1 : ℚ)] 0 = Except.error "InvalidArgument" :=
  runmean_invalid_width [(1 : ℚ)] 0 (by norm_num)

/-- C6: every invocation either fully succeeds with an output of the input's
length or fails synchronously with `InvalidArgument`; no truncated result. -/
theorem runmean_total (a : List ℚ) (width : Int) :
    (∃ out : List ℚ, runmean a width = Except.ok out ∧ out.length = a.length) ∨
    runmean a width = Except.error "InvalidArgument" := by
  by_cases h : width < 1
  · right
    unfold runmean
    rw [if_pos h]
  · left
    refine ⟨(List.range a.length).map (fun i =>
        meanQ ((a.take (i + 1)).drop (i + 1 - min (i + 1) width.toNat))), ?_, by simp⟩
    unfold runmean
    rw [if_neg h]

/-- C7: `runmean` is a deterministic function of its two parameters — equal
input sequence and equal width give equal results (purity holds by
construction: the model is a function with no state). -/
theorem runmean_deterministic (a1 a2 : List ℚ) (w1 w2 : Int)
    (ha : a1 = a2) (hw : w1 = w2) :
    runmean a1 w1 = runmean a2 w2 := by
  rw [ha, hw]

/-- Witness for C7 at `a = [1, 2]`, `width = 3`. -/
theorem runmean_deterministic_witness :
    runmean [(1 : ℚ), 2] 3 = runmean [(1 : ℚ), 2] 3 :=
  runmean_deterministic [(1 : ℚ), 2] [(1 : ℚ), 2] 3 3 rfl rfl

/-- C8 counterexample: on the empty input the outcome is not the same for
every width — `width = 1` returns the empty output while `width = 0` fails
with `InvalidArgument`, so neither "always fails" nor "always returns empty"
holds. -/
theorem runmean_empty_not_uniform :
    ¬ ((∀ w : Int, runmean ([] : List ℚ) w = Except.error "InvalidArgument") ∨
       (∀ w : Int, runmean ([] : List ℚ) w = Except.ok [])) := by
  rintro (h | h)
  · exact absurd (h 1) (by simp [runmean])
  · exact absurd (h 0) (by simp [runmean])

/-- C8 (amended): on the empty input, every valid width `≥ 1` consistently
returns the empty output; widths `< 1` fail with `InvalidArgument` per the
width-validation policy. -/
theorem runmean_empty_ok (w : Int) (h : 1 ≤ w) :
    runmean ([] : List ℚ) w = Except.ok [] := by
  unfold runmean
  rw [if_neg (not_lt.mpr h)]
  simp

/-- Witness for the amended C8 at `width = 3`. -/
theorem runmean_empty_ok_witness : runmean ([] : List ℚ) 3 = Except.ok [] :=
  runmean_empty_ok 3 (by norm_num)

/-- C9: whenever the two host arguments unmarshal, the exported shim equals
`wrap` composed with `runmean` composed with the unmarshalled arguments,
with no other transformation. -/
theorem day2day_runmean_refines (aS wS : SEXP) (a : List ℚ) (w : Int)
    (ha : asNumericVector aS = some a) (hw : asIntScalar wS = some w) :
    _day2day_runmean aS wS = Except.map wrap (runmean a w) := by
  simp only [_day2day_runmean, ha, hw]
  cases hr : runmean a w <;> simp [hr, Except.map]

/-- Witness for C9 at a numeric vector `[1, 2]` and integer scalar `1`. -/
theorem day2day_runmean_refines_witness :
    _day2day_runmean (SEXP.realVec [1, 2]) (SEXP.intScalar 1) =
      Except.map wrap (runmean [1, 2] 1) :=
  day2day_runmean_refines (SEXP.realVec [1, 2]) (SEXP.intScalar 1) [1, 2] 1 rfl rfl

/-- C10: for every initial DLL state, `R_init_day2day` registers exactly the
single `.Call` entry `"_day2day_runmean"` with arity 2 (and nothing in the
C, Fortran or external tables) and disables dynamic symbol lookup. -/
theorem R_init_day2day_registration (dll : DllInfo) :
    (R_init_day2day dll).callRoutines =
        some [⟨"_day2day_runmean", _day2day_runmean, 2⟩] ∧
    (R_init_day2day dll).dynamicLookup = false ∧
    (R_init_day2day dll).cRoutines = none ∧
    (R_init_day2day dll).fortranRoutines = none ∧
    (R_init_day2day dll).externalRoutines = none :=
  ⟨rfl, rfl, rfl, rfl, rfl⟩

end Day2Day
